import Mathlib

/-!
Verification of the histolab mask/scorer core (`histolab/masks.py`,
`histolab/scorer.py`) against its natural-language specification.

Python source is shallowly embedded: numpy boolean arrays become
`List (List Bool)` grids, Python ints become `Nat`, floats become `ℝ`,
raising code returns `Except`/`Option`.  Helper modules of the repository
that are not part of the provided source (`histolab.util`,
`histolab.filters.*`, `histolab.types`, `histolab.tile`) are modelled from
the specification; each such definition says so in its doc comment.
-/

namespace Histolab

/-- An RGB pixel. -/
abbrev RGB := Nat × Nat × Nat

/-- A color image: a grid of RGB pixels (numpy array of shape h×w×3). -/
abbrev Image := List (List RGB)

/-- A binary mask: a grid of booleans (numpy boolean array). -/
abbrev MaskGrid := List (List Bool)

/-- Shape of a grid: the list of row lengths (captures both dimensions). -/
def shape (g : List (List α)) : List Nat :=
  g.map List.length

/-- A grid is rectangular: every row has the length of the first one. -/
def isRect (g : List (List α)) : Prop :=
  shape g = List.replicate g.length ((g.headD []).length)

/-- PIL-style size of an image: `(width, height)`. -/
def Image.size (img : Image) : Nat × Nat :=
  ((img.headD []).length, img.length)

/-- Every value of a mask is one of the two binary values (masks are
boolean-valued, never probabilistic). -/
def binaryGrid (m : MaskGrid) : Prop :=
  ∀ row ∈ m, ∀ b ∈ row, b = false ∨ b = true

/-- Modelled from the spec: `histolab.types.Region` (module not in src) — a
connected component of a mask with a unique label id, its pixel area and its
bounding box `(min_row, min_col, max_row_excl, max_col_excl)` from which the
boundary polygon is produced. -/
structure Region where
  label : Nat
  area : Nat
  bbox : Nat × Nat × Nat × Nat
deriving DecidableEq

/-- Coordinates of the pixels that are on in a mask, as `(row, col)` pairs. -/
def truePixels (mask : MaskGrid) : List (Nat × Nat) :=
  (mask.enum.map fun p =>
    p.2.enum.filterMap fun q => if q.2 then some (p.1, q.1) else none).foldr
    (· ++ ·) []

/-- 8-connectivity of two pixel coordinates. -/
def adj8 (p q : Nat × Nat) : Bool :=
  decide (max p.1 q.1 - min p.1 q.1 ≤ 1) &&
  decide (max p.2 q.2 - min p.2 q.2 ≤ 1) &&
  !(decide (p = q))

/-- One growth round of a component: move the points of `rem` adjacent to
`comp` into `comp`. -/
def growStep (comp rem : List (Nat × Nat)) :
    List (Nat × Nat) × List (Nat × Nat) :=
  (comp ++ rem.filter (fun q => comp.any (fun p => adj8 p q)),
   rem.filter (fun q => !(comp.any (fun p => adj8 p q))))

/-- Iterate `growStep` a fixed number of rounds (enough rounds reach the
connected closure; the step is the identity once saturated). -/
def growIter : Nat → List (Nat × Nat) × List (Nat × Nat) →
    List (Nat × Nat) × List (Nat × Nat)
  | 0, s => s
  | fuel + 1, s => growIter fuel (growStep s.1 s.2)

/-- Split a list of pixel coordinates into 8-connected components.  The fuel
argument bounds the number of components; `pts.length` always suffices. -/
def componentsAux : Nat → List (Nat × Nat) → List (List (Nat × Nat))
  | _, [] => []
  | 0, p :: rest => [p :: rest]
  | fuel + 1, p :: rest =>
    let s := growIter rest.length ([p], rest)
    s.1 :: componentsAux fuel s.2

/-- Region record of one component: label id, pixel area, bounding box in the
skimage convention (half-open rows/cols). -/
def regionOfComponent (i : Nat) (comp : List (Nat × Nat)) : Region :=
  { label := i
    area := comp.length
    bbox :=
      ((comp.map Prod.fst).foldr min ((comp.headD (0, 0)).1),
       (comp.map Prod.snd).foldr min ((comp.headD (0, 0)).2),
       (comp.map Prod.fst).foldr max 0 + 1,
       (comp.map Prod.snd).foldr max 0 + 1) }

/-- Modelled from the spec: `histolab.util.regions_from_binary_mask` (module
not in src) — labels the 8-connected components of a binary mask and returns
one `Region` per component. -/
def regionsFromBinaryMask (mask : MaskGrid) : List Region :=
  let pts := truePixels mask
  ((componentsAux pts.length pts).enum).map fun p =>
    regionOfComponent p.1 p.2

/-- Modelled from the spec: `histolab.util.region_coordinates` (module not in
src) — the rectangle polygon of the region's bounding box, as `(x, y)`
vertices. -/
def regionCoordinates (region : Region) : List (Nat × Nat) :=
  let yUl := region.bbox.1
  let xUl := region.bbox.2.1
  let yBr := region.bbox.2.2.1
  let xBr := region.bbox.2.2.2
  [(xUl, yUl), (xBr, yUl), (xBr, yBr), (xUl, yBr)]

/-- Modelled from the spec: `histolab.util.polygon_to_mask_array` (module not
in src) — rasterize a polygon onto a fresh canvas of the given `(width,
height)`; for the axis-aligned rectangles produced by `regionCoordinates`
this fills the closed bounding box of the vertices. -/
def polygonToMaskArray (size : Nat × Nat) (poly : List (Nat × Nat)) :
    MaskGrid :=
  (List.range size.2).map fun i =>
    (List.range size.1).map fun j =>
      poly.any (fun p => decide (p.1 ≤ j)) &&
      poly.any (fun p => decide (j ≤ p.1)) &&
      poly.any (fun p => decide (p.2 ≤ i)) &&
      poly.any (fun p => decide (i ≤ p.2))

/-- A slide handle: a stable identity for cache keying and a thumbnail
(`Slide.thumbnail` is the only pixel access the mask code performs). -/
structure Slide where
  id : Nat
  thumbnail : Image

/-- Descending-area comparison used by `sorted(regions, key=lambda r:
r.area, reverse=True)`. -/
def areaDesc (a b : Region) : Prop :=
  b.area ≤ a.area

instance : DecidableRel areaDesc := fun a b => Nat.decLe b.area a.area

instance : IsTotal Region areaDesc :=
  ⟨fun a b => Nat.le_total b.area a.area⟩

instance : IsTrans Region areaDesc :=
  ⟨fun _ _ _ hab hbc => Nat.le_trans hbc hab⟩

/-- Python's `sorted(regions, key=lambda r: r.area, reverse=True)`: a stable
sort by descending area.  A stable sort with respect to a total preorder is
unique, so insertion sort computes it.  `sorted` builds a fresh list and
leaves its argument untouched, hence the second component: the list object
the caller passed in, after the call. -/
def sortedPy (l : List Region) : List Region × List Region :=
  (List.insertionSort areaDesc l, l)

/-- Embedding of `BiggestTissueBoxMask._regions` at the Python object level:
the result (or raised `ValueError`, as `Except.error`) together with the
caller's list after the call. -/
def regionsSt (regions : List Region) (n : Nat) :
    Except String (List Region) × List Region :=
  if n < 1 then
    (Except.error ("Number of regions must be greater than 0, got " ++
      toString n ++ "."), regions)
  else if regions.length < n then
    (Except.error ("n should be smaller than the number of regions [" ++
      toString regions.length ++ "], got " ++ toString n), regions)
  else
    let s := sortedPy regions
    (Except.ok (s.1.take n), s.2)

/-- `BiggestTissueBoxMask._regions(regions, n)`: the returned value (or the
raised `ValueError`). -/
def BiggestTissueBoxMask._regions (regions : List Region) (n : Nat) :
    Except String (List Region) :=
  (regionsSt regions n).1

/-- Embedding of `BiggestTissueBoxMask._mask(slide)` without the cache
decorator: tissue filters on the thumbnail, region extraction, selection of
the biggest region (`_regions(regions, n=1)[0]`, whose `ValueError` or
`IndexError` propagates), rasterization at thumbnail size.  The tissue
filter composition (`FiltersComposition(...).tissue_mask_filters`, module
not in src) is modelled from the spec as a supplied image-to-mask
function. -/
def BiggestTissueBoxMask._mask (filters : Image → MaskGrid) (slide : Slide) :
    Except String MaskGrid :=
  let thumb := slide.thumbnail
  let thumbMask := filters thumb
  let regions := regionsFromBinaryMask thumbMask
  match BiggestTissueBoxMask._regions regions 1 with
  | Except.error e => Except.error e
  | Except.ok [] => Except.error "IndexError: list index out of range"
  | Except.ok (biggestRegion :: _) =>
    Except.ok (polygonToMaskArray thumb.size (regionCoordinates biggestRegion))

/-- Embedding of `TissueMask._mask(slide)` without the cache decorator: the
tissue filter composition applied to the thumbnail. -/
def TissueMask._mask (filters : Image → MaskGrid) (slide : Slide) : MaskGrid :=
  filters slide.thumbnail

/-- The `functools.lru_cache(maxsize=100)` table of `BiggestTissueBoxMask`:
association list from slide identity to cached mask, most recently used
first. -/
abbrev MaskCache := List (Nat × MaskGrid)

/-- Cache lookup by slide identity. -/
def cacheLookup (c : MaskCache) (k : Nat) : Option MaskGrid :=
  match c.find? (fun e => e.1 == k) with
  | some e => some e.2
  | none => none

/-- On a hit, `lru_cache` moves the entry to the most-recently-used slot. -/
def cacheTouch (c : MaskCache) (k : Nat) (v : MaskGrid) : MaskCache :=
  (k, v) :: c.filter (fun e => e.1 != k)

/-- On a miss, `lru_cache` stores the fresh value and evicts beyond the
capacity of 100 entries. -/
def cacheInsert (c : MaskCache) (k : Nat) (v : MaskGrid) : MaskCache :=
  ((k, v) :: c.filter (fun e => e.1 != k)).take 100

/-- `BiggestTissueBoxMask.__call__` through the `lru_cache` decorator:
returns the result, the cache afterwards, and whether this call ran the mask
computation (`lru_cache` caches values, not raised exceptions). -/
def maskWithCache (filters : Image → MaskGrid) (c : MaskCache)
    (slide : Slide) : Except String MaskGrid × MaskCache × Bool :=
  match cacheLookup c slide.id with
  | some m => (Except.ok m, cacheTouch c slide.id m, false)
  | none =>
    match BiggestTissueBoxMask._mask filters slide with
    | Except.ok m => (Except.ok m, cacheInsert c slide.id m, true)
    | Except.error e => (Except.error e, c, true)

/-- A tile: its pixel buffer and its precomputed tissue ratio (`histolab.
tile.Tile` is not in src; modelled from the spec's Tile entity). -/
structure Tile where
  image : Image
  tissueRatio : ℝ

/-- Modelled from the spec: `histolab.filters.util.mask_difference` (module
not in src) — the set difference `maskRaw AND NOT maskClean`, elementwise. -/
def mask_difference (m1 m2 : MaskGrid) : MaskGrid :=
  List.zipWith (fun row1 row2 => List.zipWith (fun a b => a && !b) row1 row2)
    m1 m2

/-- `np.count_nonzero` on a boolean grid: the number of `true` entries. -/
def count_nonzero (m : MaskGrid) : Nat :=
  (m.map (fun row => (row.filter id).length)).foldr (· + ·) 0

/-- `ndarray.size`: the total number of entries of the grid. -/
def maskSize (m : MaskGrid) : Nat :=
  (m.map List.length).foldr (· + ·) 0

/-- Embedding of `NucleiScorer.__call__(tile)`.  The two nuclei filter
compositions (`imf.Compose([HematoxylinChannel, YenThreshold(gt)])` and the
same with a trailing `WhiteTopHat`; the filters package is not in src) are
modelled from the spec as supplied image-to-mask functions and applied to
the tile's pixel buffer, as `tile.apply_filters(...)` does.  Python's
division raises `ZeroDivisionError` on a zero-size mask, embedded as
`none`. -/
noncomputable def NucleiScorer.call (fRaw fClean : Image → MaskGrid)
    (tile : Tile) : Option ℝ :=
  let maskRawNuclei := fRaw tile.image
  let maskNucleiClean := fClean tile.image
  let maskNuclei := mask_difference maskRawNuclei maskNucleiClean
  if maskSize maskNuclei = 0 then none
  else
    let nucleiRat : ℝ := (count_nonzero maskNuclei : ℝ) /
      (maskSize maskNuclei : ℝ)
    some (nucleiRat * Real.tanh tile.tissueRatio)

/-- Definition following the spec's words (steps 3–5 of the NucleiScorer
algorithm), to be compared with the embedding of the code:
`maskNuclei = maskRaw AND NOT maskClean`,
`nucleiRatio = count(maskNuclei == true) / total_pixel_count(maskNuclei)`,
`score = nucleiRatio * tanh(tissueRatio)`. -/
noncomputable def specNucleiScore (maskRaw maskClean : MaskGrid) (tr : ℝ) :
    ℝ :=
  let maskNuclei :=
    List.zipWith (fun row1 row2 => List.zipWith (fun a b => a && !b) row1 row2)
      maskRaw maskClean
  let countTrue := (maskNuclei.map (List.countP (fun b => b))).sum
  let totalPixelCount := (maskNuclei.map List.length).sum
  ((countTrue : ℝ) / (totalPixelCount : ℝ)) * Real.tanh tr

/-- State of the pseudo-random generator behind `np.random.random` (numpy is
external; modelled from the spec as a stream of draws in `[0,1)` and a
position). -/
structure RngState where
  stream : Nat → ℝ
  pos : Nat

/-- Modelled from the spec: `np.random.random()` — returns the next value of
the pseudo-random stream and advances the state. -/
def randomRandom (g : RngState) : ℝ × RngState :=
  (g.stream g.pos, ⟨g.stream, g.pos + 1⟩)

/-- Embedding of `RandomScorer.__call__(tile)`: one fresh draw per call; the
tile is ignored and nothing is memoized. -/
def RandomScorer.call (_tile : Tile) (g : RngState) : ℝ × RngState :=
  randomRandom g

/-- `NucleiScorer.__call__` threaded through the same RNG state as
`RandomScorer.call`, to state that it neither reads nor advances it. -/
noncomputable def NucleiScorer.callR (fRaw fClean : Image → MaskGrid)
    (tile : Tile) (g : RngState) : Option ℝ × RngState :=
  (NucleiScorer.call fRaw fClean tile, g)

/-! Concrete instances used by the witness theorems. -/

/-- A one-pixel thumbnail. -/
def imgEx : Image := [[(0, 0, 0)]]

/-- A slide with the one-pixel thumbnail. -/
def slideEx : Slide := { id := 0, thumbnail := imgEx }

/-- A filter composition that flags every pixel. -/
def fOn : Image → MaskGrid := fun _ => [[true]]

/-- A filter composition that flags no pixel. -/
def fOff : Image → MaskGrid := fun _ => [[false]]

/-- A one-pixel tile with tissue ratio 0. -/
def tileEx : Tile := { image := imgEx, tissueRatio := 0 }

/-- A degenerate zero-pixel tile. -/
def tileEmpty : Tile := { image := [], tissueRatio := 0 }

/-- Three regions with areas 3, 5, 3: a tie between labels 0 and 2. -/
def regionsEx : List Region :=
  [{ label := 0, area := 3, bbox := (0, 0, 1, 1) },
   { label := 1, area := 5, bbox := (0, 0, 1, 1) },
   { label := 2, area := 3, bbox := (0, 0, 1, 1) }]

/-- An RNG state at position 0 over the all-zero stream. -/
def rngEx : RngState := { stream := fun _ => 0, pos := 0 }

/-- An RNG state at position 1 over the all-zero stream. -/
def rngEx1 : RngState := { stream := fun _ => 0, pos := 1 }

/-! Helper lemmas. -/

theorem filterClass_orderedInsert (k : Nat) (a : Region) :
    ∀ l : List Region,
      (List.orderedInsert areaDesc a l).filter (fun r => decide (r.area = k)) =
        (a :: l).filter (fun r => decide (r.area = k))
  | [] => rfl
  | b :: l => by
    by_cases hab : areaDesc a b
    · rw [List.orderedInsert_of_le areaDesc l hab]
    · have hlt : a.area < b.area := Nat.lt_of_not_le hab
      have ih := filterClass_orderedInsert k a l
      simp only [List.orderedInsert, if_neg hab]
      by_cases hqa : a.area = k
      · have hqb : ¬b.area = k := by omega
        simp [List.filter_cons, hqa, hqb, ih]
      · simp [List.filter_cons, hqa, ih]

theorem filterClass_insertionSort (k : Nat) :
    ∀ l : List Region,
      (List.insertionSort areaDesc l).filter (fun r => decide (r.area = k)) =
        l.filter (fun r => decide (r.area = k))
  | [] => rfl
  | a :: l => by
    simp only [List.insertionSort]
    rw [filterClass_orderedInsert k a (List.insertionSort areaDesc l)]
    simp only [List.filter_cons, filterClass_insertionSort k l]

theorem count_nonzero_eq_sum (m : MaskGrid) :
    count_nonzero m = (m.map (List.countP (fun b => b))).sum := by
  have hrow : ∀ row : List Bool,
      (row.filter id).length = row.countP (fun b => b) := fun row => by
    rw [List.countP_eq_length_filter]; rfl
  unfold count_nonzero
  rw [List.sum_eq_foldr]
  congr 1
  simp only [hrow]

theorem maskSize_eq_sum (m : MaskGrid) :
    maskSize m = (m.map List.length).sum := by
  unfold maskSize
  rw [List.sum_eq_foldr]

theorem shape_polygonToMaskArray (size : Nat × Nat)
    (poly : List (Nat × Nat)) :
    shape (polygonToMaskArray size poly) = List.replicate size.2 size.1 := by
  unfold shape polygonToMaskArray
  rw [List.map_map]
  apply List.eq_replicate_iff.mpr
  constructor
  · simp
  · intro b hb
    simp only [List.mem_map, Function.comp] at hb
    obtain ⟨i, _, rfl⟩ := hb
    simp

/-! Claim theorems. -/

/-- C3: `BiggestTissueBoxMask._regions(regions, n)` raises a `ValueError`
exactly when `n < 1` or `n` exceeds the number of available regions; the
error is returned to the caller (never clamped), and in particular
`_regions([r1], 2)` fails. -/
theorem claim_C3 : ∀ (regions : List Region) (n : Nat),
    ((∃ e, BiggestTissueBoxMask._regions regions n = Except.error e) ↔
      (n < 1 ∨ regions.length < n)) ∧
    ∀ r : Region,
      ∃ e, BiggestTissueBoxMask._regions [r] 2 = Except.error e := by
  intro regions n
  constructor
  · constructor
    · rintro ⟨e, he⟩
      by_contra hcon
      push_neg at hcon
      obtain ⟨hn1, hn2⟩ := hcon
      unfold BiggestTissueBoxMask._regions regionsSt at he
      rw [if_neg (by omega : ¬n < 1),
        if_neg (by omega : ¬regions.length < n)] at he
      simp at he
    · intro h
      unfold BiggestTissueBoxMask._regions regionsSt
      split_ifs with h1 h2
      · exact ⟨_, rfl⟩
      · exact ⟨_, rfl⟩
      · rcases h with h | h
        · exact absurd h h1
        · exact absurd h h2
  · intro r
    exact ⟨_, rfl⟩

/-- C10: `BiggestTissueBoxMask._regions` does not mutate its input list:
in the Python-object-level embedding `regionsSt` (whose second component is
the caller's list after the call — `sorted` builds a fresh list), the input
list is unchanged for every `regions` and every `n`. -/
theorem claim_C10 : ∀ (regions : List Region) (n : Nat),
    (regionsSt regions n).2 = regions := by
  intro regions n
  unfold regionsSt
  split_ifs <;> rfl

/-- C4: on a slide whose tissue mask contains zero connected regions,
`BiggestTissueBoxMask._mask` fails with exactly the `ValueError` raised by
`_regions` (the condition propagates; no empty mask is returned). -/
theorem claim_C4 : ∀ (filters : Image → MaskGrid) (slide : Slide),
    regionsFromBinaryMask (filters slide.thumbnail) = [] →
    ∃ e, BiggestTissueBoxMask._regions
        (regionsFromBinaryMask (filters slide.thumbnail)) 1 =
          Except.error e ∧
      BiggestTissueBoxMask._mask filters slide = Except.error e := by
  intro filters slide h
  refine ⟨"n should be smaller than the number of regions [0], got 1",
    ?_, ?_⟩
  · rw [h]
    exact rfl
  · simp only [BiggestTissueBoxMask._mask]
    rw [h]
    exact rfl

/-- Witness for C4: on a blank one-pixel thumbnail the region list is empty
and the mask computation surfaces the `ValueError`. -/
theorem claim_C4_witness :
    regionsFromBinaryMask (fOff slideEx.thumbnail) = [] ∧
    ∃ e, BiggestTissueBoxMask._regions
        (regionsFromBinaryMask (fOff slideEx.thumbnail)) 1 =
          Except.error e ∧
      BiggestTissueBoxMask._mask fOff slideEx = Except.error e :=
  ⟨rfl, claim_C4 fOff slideEx rfl⟩

/-- C6: the claim says a zero-area tile must not raise a division fault; the
code divides `np.count_nonzero(mask)` by `mask.size` unguarded, so on a tile
whose nuclei mask has size 0 it evaluates `0 / 0` and raises
`ZeroDivisionError` (embedded as `none`). -/
theorem claim_C6 :
    NucleiScorer.call (fun _ => []) (fun _ => []) tileEmpty = none := rfl

/-- C2: for `1 ≤ n ≤ regions.length`, `_regions` returns exactly `n`
regions, sorted descending by area, which are the `n` largest (every
returned region's area is at least every left-out region's area), and ties
are broken by the deterministic secondary key "position in the input list"
(the sort is stable: within each area class the output preserves the input
order, stated via `filter`). -/
theorem claim_C2 : ∀ (regions : List Region) (n : Nat),
    1 ≤ n → n ≤ regions.length →
    ∃ taken rest,
      BiggestTissueBoxMask._regions regions n = Except.ok taken ∧
      taken.length = n ∧
      taken.Pairwise areaDesc ∧
      (taken ++ rest).Perm regions ∧
      (∀ a ∈ taken, ∀ b ∈ rest, b.area ≤ a.area) ∧
      ∀ k, taken.filter (fun r => decide (r.area = k)) ++
          rest.filter (fun r => decide (r.area = k)) =
        regions.filter (fun r => decide (r.area = k)) := by
  intro regions n h1 h2
  refine ⟨(List.insertionSort areaDesc regions).take n,
    (List.insertionSort areaDesc regions).drop n, ?_, ?_, ?_, ?_, ?_, ?_⟩
  · unfold BiggestTissueBoxMask._regions regionsSt sortedPy
    rw [if_neg (by omega : ¬n < 1),
      if_neg (by omega : ¬regions.length < n)]
  · rw [List.length_take, List.length_insertionSort]
    exact Nat.min_eq_left h2
  · exact List.Pairwise.sublist (List.take_sublist n _)
      (List.sorted_insertionSort areaDesc regions)
  · rw [List.take_append_drop]
    exact List.perm_insertionSort areaDesc regions
  · have hpw : List.Pairwise areaDesc
        ((List.insertionSort areaDesc regions).take n ++
          (List.insertionSort areaDesc regions).drop n) := by
      rw [List.take_append_drop]
      exact List.sorted_insertionSort areaDesc regions
    intro a ha b hb
    exact (List.pairwise_append.mp hpw).2.2 a ha b hb
  · intro k
    rw [← List.filter_append, List.take_append_drop]
    exact filterClass_insertionSort k regions

/-- Witness for C2 at three regions with areas 3, 5, 3 and n = 2. -/
theorem claim_C2_witness :
    1 ≤ 2 ∧ 2 ≤ regionsEx.length ∧
    ∃ taken rest,
      BiggestTissueBoxMask._regions regionsEx 2 = Except.ok taken ∧
      taken.length = 2 ∧
      taken.Pairwise areaDesc ∧
      (taken ++ rest).Perm regionsEx ∧
      (∀ a ∈ taken, ∀ b ∈ rest, b.area ≤ a.area) ∧
      ∀ k, taken.filter (fun r => decide (r.area = k)) ++
          rest.filter (fun r => decide (r.area = k)) =
        regionsEx.filter (fun r => decide (r.area = k)) :=
  ⟨by decide, by decide, claim_C2 regionsEx 2 (by decide) (by decide)⟩

/-- C1: for every tile whose nuclei mask is not pixel-free, the embedded
`NucleiScorer.__call__` equals the spec formula: the count of true pixels of
`maskRaw AND NOT maskClean` over its total pixel count, times
`tanh(tissueRatio)`. -/
theorem claim_C1 : ∀ (fRaw fClean : Image → MaskGrid) (tile : Tile),
    maskSize (mask_difference (fRaw tile.image) (fClean tile.image)) ≠ 0 →
    NucleiScorer.call fRaw fClean tile =
      some (specNucleiScore (fRaw tile.image) (fClean tile.image)
        tile.tissueRatio) := by
  intro fRaw fClean tile hsz
  simp only [NucleiScorer.call, specNucleiScore]
  rw [if_neg hsz]
  simp only [mask_difference]
  rw [count_nonzero_eq_sum, maskSize_eq_sum]

/-- Witness for C1 at a one-pixel tile whose raw mask is on and whose
cleaned mask is off. -/
theorem claim_C1_witness :
    maskSize (mask_difference (fOn tileEx.image) (fOff tileEx.image)) ≠ 0 ∧
    NucleiScorer.call fOn fOff tileEx =
      some (specNucleiScore (fOn tileEx.image) (fOff tileEx.image)
        tileEx.tissueRatio) :=
  ⟨by decide, claim_C1 fOn fOff tileEx (by decide)⟩

/-- C8: a tile with tissue ratio 0 scores exactly 0, whatever the nuclei
masks hold (as long as the ratio computation does not fault), because
`tanh 0 = 0`. -/
theorem claim_C8 : ∀ (fRaw fClean : Image → MaskGrid) (tile : Tile),
    tile.tissueRatio = 0 →
    maskSize (mask_difference (fRaw tile.image) (fClean tile.image)) ≠ 0 →
    NucleiScorer.call fRaw fClean tile = some 0 := by
  intro fRaw fClean tile h0 hsz
  simp only [NucleiScorer.call]
  rw [if_neg hsz, h0, Real.tanh_zero, mul_zero]

/-- Witness for C8 at the one-pixel tile with tissue ratio 0. -/
theorem claim_C8_witness :
    tileEx.tissueRatio = 0 ∧
    maskSize (mask_difference (fOn tileEx.image) (fOff tileEx.image)) ≠ 0 ∧
    NucleiScorer.call fOn fOff tileEx = some 0 :=
  ⟨rfl, by decide, claim_C8 fOn fOff tileEx rfl (by decide)⟩

/-- C7: `NucleiScorer` is deterministic — its result does not depend on (and
does not advance) the pseudo-random state, so two calls on the same tile
agree — while `RandomScorer` returns a fresh draw of the stream on every
call (no memoization: the second call returns the next stream value), lying
in `[0,1)` whenever the stream does. -/
theorem claim_C7 : ∀ (fRaw fClean : Image → MaskGrid) (tile : Tile)
    (g g1 g2 : RngState),
    (∀ n, 0 ≤ g.stream n ∧ g.stream n < 1) →
    ((NucleiScorer.callR fRaw fClean tile g1).1 =
        (NucleiScorer.callR fRaw fClean tile g2).1 ∧
      (NucleiScorer.callR fRaw fClean tile g1).2 = g1 ∧
      (RandomScorer.call tile g).1 = g.stream g.pos ∧
      (RandomScorer.call tile (RandomScorer.call tile g).2).1 =
        g.stream (g.pos + 1) ∧
      0 ≤ (RandomScorer.call tile g).1 ∧ (RandomScorer.call tile g).1 < 1) :=
  fun _ _ _ g _ _ h =>
    ⟨rfl, rfl, rfl, rfl, (h g.pos).1, (h g.pos).2⟩

/-- Witness for C7 over the all-zero pseudo-random stream. -/
theorem claim_C7_witness :
    (NucleiScorer.callR fOn fOff tileEx rngEx).1 =
        (NucleiScorer.callR fOn fOff tileEx rngEx1).1 ∧
      (NucleiScorer.callR fOn fOff tileEx rngEx).2 = rngEx ∧
      (RandomScorer.call tileEx rngEx).1 = rngEx.stream rngEx.pos ∧
      (RandomScorer.call tileEx (RandomScorer.call tileEx rngEx).2).1 =
        rngEx.stream (rngEx.pos + 1) ∧
      0 ≤ (RandomScorer.call tileEx rngEx).1 ∧
      (RandomScorer.call tileEx rngEx).1 < 1 :=
  claim_C7 fOn fOff tileEx rngEx rngEx rngEx1
    (fun _ => ⟨le_refl 0, zero_lt_one⟩)

/-- C9: the masks produced by both strategies have exactly the thumbnail's
dimensions — for `TissueMask` whenever the (external, spec-modelled) tissue
filter composition is dimension-preserving, and for `BiggestTissueBoxMask`
because the rasterizer draws on a canvas of the thumbnail's size — and the
values are binary. -/
theorem claim_C9 : ∀ (filters : Image → MaskGrid) (slide : Slide),
    isRect slide.thumbnail →
    shape (filters slide.thumbnail) = shape slide.thumbnail →
    ((shape (TissueMask._mask filters slide) = shape slide.thumbnail ∧
        binaryGrid (TissueMask._mask filters slide)) ∧
      ∀ m, BiggestTissueBoxMask._mask filters slide = Except.ok m →
        shape m = shape slide.thumbnail ∧ binaryGrid m) := by
  intro filters slide hrect hf
  have hbin : ∀ g : MaskGrid, binaryGrid g := by
    intro g row _ b _
    cases b
    · exact Or.inl rfl
    · exact Or.inr rfl
  refine ⟨⟨hf, hbin _⟩, ?_⟩
  intro m hm
  simp only [BiggestTissueBoxMask._mask] at hm
  cases hreg : BiggestTissueBoxMask._regions
      (regionsFromBinaryMask (filters slide.thumbnail)) 1 with
  | error e =>
    rw [hreg] at hm
    exact absurd hm (by simp)
  | ok rs =>
    cases rs with
    | nil =>
      rw [hreg] at hm
      exact absurd hm (by simp)
    | cons r rest =>
      rw [hreg] at hm
      have hm' : polygonToMaskArray slide.thumbnail.size
          (regionCoordinates r) = m := by
        injection hm
      refine ⟨?_, hbin m⟩
      rw [← hm', shape_polygonToMaskArray]
      unfold isRect at hrect
      rw [hrect]
      rfl

/-- Witness for C9 at a one-pixel slide with the all-on filter. -/
theorem claim_C9_witness :
    isRect slideEx.thumbnail ∧
    shape (fOn slideEx.thumbnail) = shape slideEx.thumbnail ∧
    ((shape (TissueMask._mask fOn slideEx) = shape slideEx.thumbnail ∧
        binaryGrid (TissueMask._mask fOn slideEx)) ∧
      ∀ m, BiggestTissueBoxMask._mask fOn slideEx = Except.ok m →
        shape m = shape slideEx.thumbnail ∧ binaryGrid m) :=
  ⟨rfl, rfl, claim_C9 fOn slideEx rfl rfl⟩

/-- C5: through the `lru_cache` layer, a first call on a slide computes the
mask once and stores it; a second call on the unchanged slide is a cache
hit: it runs no computation and returns the bit-identical mask, which also
equals the single direct computation without caching. -/
theorem claim_C5 : ∀ (filters : Image → MaskGrid) (slide : Slide)
    (m : MaskGrid),
    BiggestTissueBoxMask._mask filters slide = Except.ok m →
    ((maskWithCache filters [] slide).1 = Except.ok m ∧
      (maskWithCache filters [] slide).2.2 = true ∧
      (maskWithCache filters (maskWithCache filters [] slide).2.1
          slide).1 = Except.ok m ∧
      (maskWithCache filters (maskWithCache filters [] slide).2.1
          slide).2.2 = false) := by
  intro filters slide m h
  have h1 : maskWithCache filters [] slide =
      (Except.ok m, [(slide.id, m)], true) := by
    unfold maskWithCache cacheLookup cacheInsert
    simp [h]
  have h2 : maskWithCache filters [(slide.id, m)] slide =
      (Except.ok m, [(slide.id, m)], false) := by
    unfold maskWithCache cacheLookup cacheTouch
    simp
  rw [h1, h2]
  exact ⟨rfl, rfl, rfl, rfl⟩

/-- Witness for C5 at the one-pixel slide, whose box mask is the full
one-pixel mask. -/
theorem claim_C5_witness :
    BiggestTissueBoxMask._mask fOn slideEx = Except.ok [[true]] ∧
    ((maskWithCache fOn [] slideEx).1 = Except.ok [[true]] ∧
      (maskWithCache fOn [] slideEx).2.2 = true ∧
      (maskWithCache fOn (maskWithCache fOn [] slideEx).2.1
          slideEx).1 = Except.ok [[true]] ∧
      (maskWithCache fOn (maskWithCache fOn [] slideEx).2.1
          slideEx).2.2 = false) :=
  ⟨rfl, claim_C5 fOn slideEx [[true]] rfl⟩

end Histolab
